import Mathlib

/-!
Verification of the resilient network client core of the Agents-arena frontend.

Part I embeds the retrying request executor (`fetchWithRetry`, `isRetryableError`,
`RETRY_CONFIG` from the API client module).  Part II embeds the WebSocket client
state machine (`websocket-client.js`).  Definitions are shallow embeddings of the
JavaScript source; effects (transport openings, timer scheduling, event emissions)
are made explicit as data so that temporal claims become statements about effect
traces.
-/

namespace AgentsArena

/-! ## Part I: RequestExecutor (API client `fetchWithRetry`) -/

/-- Retry configuration record, shape of the source's `RETRY_CONFIG`.
The source function reads the module-level constant `RETRY_CONFIG`; the embedding
takes the record as a parameter so that claims quantifying over `maxAttempts`
can be stated, and instantiates it with `RETRY_CONFIG` for the concrete code. -/
structure RetryConfig where
  maxAttempts : Nat
  retryDelay : Nat
  backoffMultiplier : Nat
  retryableStatuses : List Nat
  nonRetryableStatuses : List Nat
  networkErrors : List String
deriving DecidableEq

/-- The source's `RETRY_CONFIG` constant. -/
def RETRY_CONFIG : RetryConfig :=
  { maxAttempts := 3
    retryDelay := 1000
    backoffMultiplier := 2
    retryableStatuses := [408, 429, 500, 502, 503, 504]
    nonRetryableStatuses := [400, 401, 403, 404]
    networkErrors := ["ECONNRESET", "ETIMEDOUT", "EAI_AGAIN"] }

/-- A JavaScript error value as observed by `isRetryableError`:
whether it is an `instanceof APIError`, its `name`, `message`, and (for
`APIError`s) its HTTP `status`. -/
structure JsError where
  isAPIError : Bool
  name : String
  message : String
  status : Nat
deriving DecidableEq

/-- `String.prototype.includes`: substring containment. -/
def containsSubstr (s sub : String) : Bool :=
  decide (sub.toList <:+: s.toList)

/-- Source `isRetryableError` (API client module, lines 48-70).  The four checks
in source order: non-retryable status wins; fetch-layer `TypeError`s are
retryable; messages naming a network error code are retryable; retryable
statuses are retryable; everything else is not. -/
def isRetryableError (cfg : RetryConfig) (e : JsError) : Bool :=
  if e.isAPIError && cfg.nonRetryableStatuses.contains e.status then
    false
  else if e.name == "TypeError" && containsSubstr e.message "fetch" then
    true
  else if cfg.networkErrors.any (fun code => containsSubstr e.message code) then
    true
  else if e.isAPIError && cfg.retryableStatuses.contains e.status then
    true
  else
    false

/-- A response body as seen by the error-message extraction step of
`fetchWithRetry`.  A JSON body may carry `message` and `detail` fields
(`none` models a JavaScript-falsy value, i.e. absent or empty); otherwise the
body is plain text. -/
structure ResponseBody where
  isJson : Bool
  jsonMessage : Option String
  jsonDetail : Option String
  text : String
deriving DecidableEq

/-- The `errorMessage` computed by `fetchWithRetry` for a non-ok response:
JSON content-type checks `json.message` then `json.detail`, falling back to
`HTTP <status>`; otherwise the body text, with the same fallback when empty. -/
def errorMessageOf (status : Nat) (b : ResponseBody) : String :=
  if b.isJson then
    b.jsonMessage.getD (b.jsonDetail.getD s!"HTTP {status}")
  else if b.text = "" then
    s!"HTTP {status}"
  else
    b.text

/-- The `APIError` thrown by `fetchWithRetry` when `!response.ok`. -/
def mkHttpError (status : Nat) (b : ResponseBody) : JsError :=
  { isAPIError := true, name := "APIError", message := errorMessageOf status b, status := status }

/-- What one `fetch` call yields: a response (with its `ok` flag, status and
body) or a thrown transport-level error. -/
inductive AttemptResult where
  | response (ok : Bool) (status : Nat) (body : ResponseBody)
  | thrown (e : JsError)
deriving DecidableEq

deriving instance DecidableEq for Except

/-- The observable result of a whole `fetchWithRetry` run: the attempt numbers
issued in order, the sleeps performed — `(n, d)` means the run slept `d` ms
after failed attempt `n`, before issuing attempt `n + 1` — and the final
outcome (the ok response's status and body, or the thrown error). -/
structure RunResult where
  attempts : List Nat
  sleeps : List (Nat × Nat)
  outcome : Except JsError (Nat × ResponseBody)
deriving DecidableEq

/-- Source `fetchWithRetry` (API client module, lines 79-118), with the
transport abstracted as a map from attempt number to `AttemptResult`.
An ok response returns immediately; otherwise the error is thrown if it is not
retryable or `attempt >= maxAttempts`, else the run sleeps
`retryDelay * backoffMultiplier ^ (attempt - 1)` ms and recurses at
`attempt + 1`.  No cap is applied to the computed delay in the source. -/
def fetchWithRetry (cfg : RetryConfig) (transport : Nat → AttemptResult)
    (attempt : Nat) : RunResult :=
  let tried : Except JsError (Nat × ResponseBody) :=
    match transport attempt with
    | .response true status body => .ok (status, body)
    | .response false status body => .error (mkHttpError status body)
    | .thrown e => .error e
  match tried with
  | .ok r => { attempts := [attempt], sleeps := [], outcome := .ok r }
  | .error e =>
    if isRetryableError cfg e = false ∨ cfg.maxAttempts ≤ attempt then
      { attempts := [attempt], sleeps := [], outcome := .error e }
    else
      let delayMs := cfg.retryDelay * cfg.backoffMultiplier ^ (attempt - 1)
      let rest := fetchWithRetry cfg transport (attempt + 1)
      { attempts := attempt :: rest.attempts
        sleeps := (attempt, delayMs) :: rest.sleeps
        outcome := rest.outcome }
termination_by cfg.maxAttempts - attempt
decreasing_by
  rename_i h
  push_neg at h
  omega

/-- An ok response at any attempt returns at once: that attempt is the only one
made at this level, with no sleep. -/
lemma fetchWithRetry_success {cfg : RetryConfig} {transport : Nat → AttemptResult}
    {attempt status : Nat} {body : ResponseBody}
    (h : transport attempt = .response true status body) :
    fetchWithRetry cfg transport attempt =
      { attempts := [attempt], sleeps := [], outcome := .ok (status, body) } := by
  unfold fetchWithRetry
  rw [h]

/-- A non-ok response that is not retried (non-retryable error or attempts
exhausted) is thrown at once. -/
lemma fetchWithRetry_stop {cfg : RetryConfig} {transport : Nat → AttemptResult}
    {attempt status : Nat} {body : ResponseBody}
    (h : transport attempt = .response false status body)
    (h2 : isRetryableError cfg (mkHttpError status body) = false ∨ cfg.maxAttempts ≤ attempt) :
    fetchWithRetry cfg transport attempt =
      { attempts := [attempt], sleeps := [], outcome := .error (mkHttpError status body) } := by
  unfold fetchWithRetry
  rw [h]
  simp only [if_pos h2]

/-- A retryable non-ok response with attempts remaining sleeps the backoff
delay and recurses. -/
lemma fetchWithRetry_retry {cfg : RetryConfig} {transport : Nat → AttemptResult}
    {attempt status : Nat} {body : ResponseBody}
    (h : transport attempt = .response false status body)
    (h2 : isRetryableError cfg (mkHttpError status body) = true)
    (h3 : attempt < cfg.maxAttempts) :
    fetchWithRetry cfg transport attempt =
      { attempts := attempt :: (fetchWithRetry cfg transport (attempt + 1)).attempts
        sleeps := (attempt, cfg.retryDelay * cfg.backoffMultiplier ^ (attempt - 1)) ::
          (fetchWithRetry cfg transport (attempt + 1)).sleeps
        outcome := (fetchWithRetry cfg transport (attempt + 1)).outcome } := by
  conv_lhs => unfold fetchWithRetry
  rw [h]
  have : ¬ (isRetryableError cfg (mkHttpError status body) = false ∨ cfg.maxAttempts ≤ attempt) := by
    push_neg
    exact ⟨by simp [h2], by omega⟩
  simp only [if_neg this]

/-- Every sleep recorded by a run starting at `attempt` belongs to an attempt
number `n` with `attempt ≤ n < maxAttempts`, and its duration is exactly
`retryDelay * backoffMultiplier ^ (n - 1)`. -/
lemma fetchWithRetry_sleeps_spec (cfg : RetryConfig) (transport : Nat → AttemptResult) :
    ∀ k attempt, cfg.maxAttempts - attempt ≤ k →
      ∀ p ∈ (fetchWithRetry cfg transport attempt).sleeps,
        attempt ≤ p.1 ∧ p.1 < cfg.maxAttempts ∧
          p.2 = cfg.retryDelay * cfg.backoffMultiplier ^ (p.1 - 1) := by
  intro k
  induction k with
  | zero =>
    intro attempt hk p hp
    exfalso
    have hmax : cfg.maxAttempts ≤ attempt := by omega
    revert hp
    unfold fetchWithRetry
    match htr : transport attempt with
    | .response true status body => simp
    | .response false status body => simp [if_pos (Or.inr hmax)]
    | .thrown e => simp [if_pos (Or.inr hmax)]
  | succ k ih =>
    intro attempt hk p hp
    revert hp
    conv_lhs => unfold fetchWithRetry
    have handle : ∀ e : JsError,
        (p ∈ (if isRetryableError cfg e = false ∨ cfg.maxAttempts ≤ attempt then
          ({ attempts := [attempt], sleeps := [], outcome := .error e } : RunResult)
        else
          { attempts := attempt :: (fetchWithRetry cfg transport (attempt + 1)).attempts
            sleeps := (attempt, cfg.retryDelay * cfg.backoffMultiplier ^ (attempt - 1)) ::
              (fetchWithRetry cfg transport (attempt + 1)).sleeps
            outcome := (fetchWithRetry cfg transport (attempt + 1)).outcome }).sleeps) →
        attempt ≤ p.1 ∧ p.1 < cfg.maxAttempts ∧
          p.2 = cfg.retryDelay * cfg.backoffMultiplier ^ (p.1 - 1) := by
      intro e hp
      by_cases hcond : isRetryableError cfg e = false ∨ cfg.maxAttempts ≤ attempt
      · rw [if_pos hcond] at hp
        simp at hp
      · rw [if_neg hcond] at hp
        push_neg at hcond
        simp only [List.mem_cons] at hp
        rcases hp with hp | hp
        · subst hp
          exact ⟨le_refl _, by omega, rfl⟩
        · have := ih (attempt + 1) (by omega) p hp
          exact ⟨by omega, this.2.1, this.2.2⟩
    match htr : transport attempt with
    | .response true status body => simp
    | .response false status body => exact handle (mkHttpError status body)
    | .thrown e => exact handle e

/-! ## Part II: StreamConnection (`websocket-client.js`) -/

/-- Shape of the source's `RECONNECT_CONFIG` (websocket-client.js, lines 18-25). -/
structure ReconnectConfig where
  enabled : Bool
  maxAttempts : Nat
  baseDelay : Nat
  maxDelay : Nat
  backoffMultiplier : Nat
  heartbeatInterval : Nat
deriving DecidableEq

/-- The source's default `RECONNECT_CONFIG` constant. -/
def RECONNECT_CONFIG : ReconnectConfig :=
  { enabled := true
    maxAttempts := 5
    baseDelay := 1000
    maxDelay := 30000
    backoffMultiplier := 2
    heartbeatInterval := 30000 }

/-- Instance state of a `WebSocketClient` (constructor, lines 31-50).
`ws` records whether `this.ws` holds a socket object; `reconnectTimer` and
`heartbeatTimer` record whether the corresponding timer is pending (a cleared
or fired timer is no longer pending and its callback can no longer run). -/
structure WSClient where
  debateId : String
  config : ReconnectConfig
  token : Option String
  ws : Bool
  isConnecting : Bool
  isConnected : Bool
  shouldReconnect : Bool
  reconnectAttempts : Nat
  reconnectTimer : Bool
  heartbeatTimer : Bool
  messageQueue : List String
deriving DecidableEq

/-- Externally visible actions a `WebSocketClient` method performs, in order. -/
inductive Effect where
  | openTransport (debateId : String) (token : String)
  | closeTransport
  | transmit (msg : String)
  | setReconnectTimer (delay : Nat)
  | clearReconnectTimer
  | startHeartbeatTimer (interval : Nat)
  | clearHeartbeatTimer
  | emit (channel : String)
deriving DecidableEq

/-- `getToken` (lines 55-67): re-reads the stored credential; when storage has
a user record the token field is overwritten, otherwise `this.token` keeps its
previous value. -/
def getToken (s : WSClient) (stored : Option String) : WSClient :=
  match stored with
  | some t => { s with token := some t }
  | none => s

/-- `buildUrl` (lines 72-79): throws when no token is present, otherwise
returns the connection URL embedding the credential. -/
def buildUrl (s : WSClient) : Except String String :=
  match s.token with
  | none => .error "未找到认证令牌"
  | some t => .ok s!"/ws/debates/{s.debateId}?token={t}"

/-- `stopHeartbeat` (lines 268-273). -/
def stopHeartbeat (s : WSClient) : WSClient × List Effect :=
  if s.heartbeatTimer then
    ({ s with heartbeatTimer := false }, [Effect.clearHeartbeatTimer])
  else
    (s, [])

/-- `startHeartbeat` (lines 256-263): stops any previous heartbeat and starts
the interval timer. -/
def startHeartbeat (s : WSClient) : WSClient × List Effect :=
  let p := stopHeartbeat s
  ({ p.1 with heartbeatTimer := true },
    p.2 ++ [Effect.startHeartbeatTimer s.config.heartbeatInterval])

/-- `scheduleReconnect` (lines 232-251): when the attempt counter has reached
`maxAttempts`, emit `onReconnectFailed` and schedule nothing; otherwise compute
`min(baseDelay * backoffMultiplier ^ reconnectAttempts, maxDelay)` from the
pre-increment counter, increment the counter and schedule a single-shot timer
whose callback is `connect()`. -/
def scheduleReconnect (s : WSClient) : WSClient × List Effect :=
  if s.config.maxAttempts ≤ s.reconnectAttempts then
    (s, [Effect.emit "onReconnectFailed"])
  else
    let delay := min (s.config.baseDelay * s.config.backoffMultiplier ^ s.reconnectAttempts)
      s.config.maxDelay
    ({ s with reconnectAttempts := s.reconnectAttempts + 1, reconnectTimer := true },
      [Effect.setReconnectTimer delay])

/-- `handleConnectionError` (lines 220-227): emit `onError`, then schedule a
reconnect when `shouldReconnect` and the config enables it. -/
def handleConnectionError (s : WSClient) : WSClient × List Effect :=
  if s.shouldReconnect && s.config.enabled then
    let p := scheduleReconnect s
    (p.1, Effect.emit "onError" :: p.2)
  else
    (s, [Effect.emit "onError"])

/-- `connect` (lines 84-103): a no-op while already connecting or connected;
otherwise set `isConnecting`, re-read the token, and either open a transport
(`new WebSocket(url)`) or — when `buildUrl` throws — clear `isConnecting` and
run `handleConnectionError`. -/
def connect (s : WSClient) (stored : Option String) : WSClient × List Effect :=
  if s.isConnecting || s.isConnected then
    (s, [])
  else
    let s1 := getToken { s with isConnecting := true } stored
    match buildUrl s1 with
    | .ok _ =>
      ({ s1 with ws := true },
        [Effect.openTransport s1.debateId (s1.token.getD "")])
    | .error _ =>
      handleConnectionError { s1 with isConnecting := false }

/-- `send` (lines 286-302), with the transport's per-message success modelled
by `env`: while not connected (or with no socket) the message is queued and
`false` returned; otherwise `ws.send` either succeeds (`true`) or throws, in
which case the message is queued and `false` returned. -/
def send (env : String → Bool) (s : WSClient) (m : String) : WSClient × Bool × List Effect :=
  if !s.isConnected || !s.ws then
    ({ s with messageQueue := s.messageQueue ++ [m] }, false, [])
  else if env m then
    (s, true, [Effect.transmit m])
  else
    ({ s with messageQueue := s.messageQueue ++ [m] }, false, [])

/-- The queue evolution of `flushMessageQueue`'s while-loop over a connected
socket: each head is shifted and handed to `send`; on success draining
continues, on a send failure the head is pushed to the BACK of the remaining
queue and the loop breaks.  Returns (transmitted messages, final queue). -/
def drain (env : String → Bool) : List String → List String × List String
  | [] => ([], [])
  | m :: rest =>
    if env m then
      let p := drain env rest
      (m :: p.1, p.2)
    else
      ([], rest ++ [m])

/-- `flushMessageQueue` (lines 307-314): `while queue ≠ []: m := shift(); if
!send(m) break`.  Over a connected socket this is `drain`; while disconnected
the shifted head is immediately re-queued at the back by `send` and the loop
breaks after one iteration. -/
def flushMessageQueue (env : String → Bool) (s : WSClient) : WSClient × List Effect :=
  if s.isConnected && s.ws then
    let p := drain env s.messageQueue
    ({ s with messageQueue := p.2 }, p.1.map Effect.transmit)
  else
    match s.messageQueue with
    | [] => (s, [])
    | m :: rest => ({ s with messageQueue := rest ++ [m] }, [])

/-- `handleOpen` (lines 129-143): mark connected, zero the reconnect counter,
flush the outbound queue, start the heartbeat, emit `onOpen`. -/
def handleOpen (env : String → Bool) (s : WSClient) : WSClient × List Effect :=
  let s1 := { s with isConnecting := false, isConnected := true, reconnectAttempts := 0 }
  let p1 := flushMessageQueue env s1
  let p2 := startHeartbeat p1.1
  (p2.1, p1.2 ++ p2.2 ++ [Effect.emit "onOpen"])

/-- `handleClose` (lines 200-215): clear the connection flags, stop the
heartbeat, emit `onClose`, and schedule a reconnect when `shouldReconnect` and
the config enables it. -/
def handleClose (s : WSClient) : WSClient × List Effect :=
  let s1 := { s with isConnecting := false, isConnected := false }
  let p1 := stopHeartbeat s1
  if p1.1.shouldReconnect && p1.1.config.enabled then
    let p2 := scheduleReconnect p1.1
    (p2.1, p1.2 ++ [Effect.emit "onClose"] ++ p2.2)
  else
    (p1.1, p1.2 ++ [Effect.emit "onClose"])

/-- `disconnect` (lines 319-339): clear `shouldReconnect`, cancel a pending
reconnect timer, stop the heartbeat, close and null the socket, clear both
connection flags. -/
def disconnect (s : WSClient) : WSClient × List Effect :=
  let s1 := { s with shouldReconnect := false }
  let p1 :=
    if s1.reconnectTimer then
      ({ s1 with reconnectTimer := false }, [Effect.clearReconnectTimer])
    else
      (s1, [])
  let p2 := stopHeartbeat p1.1
  let p3 :=
    if p2.1.ws then
      ({ p2.1 with ws := false }, [Effect.closeTransport])
    else
      (p2.1, [])
  ({ p3.1 with isConnected := false, isConnecting := false }, p1.2 ++ p2.2 ++ p3.2)

/-- `reconnect` (lines 344-349): disconnect, re-enable reconnection, zero the
attempt counter, connect. -/
def reconnect (stored : Option String) (s : WSClient) : WSClient × List Effect :=
  let p1 := disconnect s
  let s2 := { p1.1 with shouldReconnect := true, reconnectAttempts := 0 }
  let p2 := connect s2 stored
  (p2.1, p1.2 ++ p2.2)

/-- The reconnect timer firing: a pending timer becomes non-pending and its
callback `() => this.connect()` runs (lines 248-250).  A timer that is not
pending (never set, already fired, or cancelled by `clearTimeout`) never
delivers its callback. -/
def fireReconnectTimer (stored : Option String) (s : WSClient) : WSClient × List Effect :=
  if s.reconnectTimer then
    let p := connect { s with reconnectTimer := false } stored
    (p.1, p.2)
  else
    (s, [])

/-! ### Inbound dispatch (`handleMessage`) -/

/-- `WSMessageType` constants (lines 6-13). -/
def WSMessageType.SPEECH : String := "speech"

def WSMessageType.STATUS : String := "status"

def WSMessageType.SCORE : String := "score"

def WSMessageType.NOTIFICATION : String := "notification"

def WSMessageType.ERROR : String := "error"

def WSMessageType.CONNECTED : String := "connected"

/-- A parsed inbound frame: its `type` discriminator (`none` when the field is
absent) and an opaque payload field; handlers always receive the whole frame. -/
structure WSData where
  type : Option String
  content : Option String
deriving DecidableEq

/-- Observable actions of `handleMessage`: an event-channel invocation carrying
the full frame, the unknown-type warning, or the parse-failure diagnostic. -/
inductive MsgEffect where
  | emit (channel : String) (data : WSData)
  | warnUnknownType (t : String)
  | logParseError
deriving DecidableEq

/-- `handleMessage` (lines 148-187) over the JSON-parse result of the frame
(`none` = `JSON.parse` threw).  A malformed frame only logs a diagnostic.  A
parsed frame with a truthy `type` is switched on the discriminator — the six
recognized types reach their named channel, anything else logs a warning — and
every parsed frame then reaches the catch-all `onMessage` channel.  The
instance state is returned untouched (`resetHeartbeat` is a no-op in the
source). -/
def handleMessage (s : WSClient) (parsed : Option WSData) : WSClient × List MsgEffect :=
  match parsed with
  | none => (s, [MsgEffect.logParseError])
  | some d =>
    let typeEffects : List MsgEffect :=
      match d.type with
      | none => []
      | some t =>
        -- `if (data.type)`: the empty string is falsy in JavaScript
        if t = "" then []
        else if t = WSMessageType.SPEECH then [MsgEffect.emit "onSpeech" d]
        else if t = WSMessageType.STATUS then [MsgEffect.emit "onStatus" d]
        else if t = WSMessageType.SCORE then [MsgEffect.emit "onScore" d]
        else if t = WSMessageType.NOTIFICATION then [MsgEffect.emit "onNotification" d]
        else if t = WSMessageType.ERROR then [MsgEffect.emit "onError" d]
        else if t = WSMessageType.CONNECTED then [MsgEffect.emit "onConnected" d]
        else [MsgEffect.warnUnknownType t]
    (s, typeEffects ++ [MsgEffect.emit "onMessage" d])

/-- The named channel a recognized discriminator dispatches to (spec §4.2),
used to state the dispatch claim uniformly over the six recognized types. -/
def channelFor (t : String) : Option String :=
  if t = "speech" then some "onSpeech"
  else if t = "status" then some "onStatus"
  else if t = "score" then some "onScore"
  else if t = "notification" then some "onNotification"
  else if t = "error" then some "onError"
  else if t = "connected" then some "onConnected"
  else none

/-! ### Registry (`apiClient.connectWebSocket`, API client module lines 705-731) -/

/-- The `APIError` value of the API client module. -/
structure APIError where
  message : String
  status : Nat
deriving DecidableEq

/-- `apiClient.connectWebSocket` over the module-level `wsClients` cache
(an association list keyed by the debate id): with no stored credential it
throws a 401 `APIError` before touching the cache; with a credential it reuses
a cached connected client, otherwise creates a new client, caches it and
connects it.  Returns the outcome together with the resulting cache and the
effects performed. -/
def apiConnectWebSocket (stored : Option String) (cache : List (String × WSClient))
    (debateId : String) (cfg : ReconnectConfig) :
    Except APIError (WSClient × List (String × WSClient) × List Effect) :=
  match stored with
  | none => .error { message := "未找到认证令牌", status := 401 }
  | some _ =>
    let cached := (cache.find? (fun kv => kv.1 = debateId)).map Prod.snd
    match cached with
    | some existing =>
      if existing.isConnected then
        .ok (existing, cache, [])
      else
        connectFresh
    | none => connectFresh
where
  connectFresh : Except APIError (WSClient × List (String × WSClient) × List Effect) :=
    let fresh : WSClient :=
      { debateId := debateId
        config := cfg
        token := stored
        ws := false
        isConnecting := false
        isConnected := false
        shouldReconnect := true
        reconnectAttempts := 0
        reconnectTimer := false
        heartbeatTimer := false
        messageQueue := [] }
    let cache2 := (debateId, fresh) :: cache.filter (fun kv => ¬ kv.1 = debateId)
    let p := connect fresh stored
    .ok (p.1, cache2, p.2)

/-! ### Reconnect exhaustion trace -/

/-- Count the transport openings in an effect trace. -/
def countOpen (effects : List Effect) : Nat :=
  effects.countP (fun e => match e with
    | .openTransport _ _ => true
    | _ => false)

/-- Count the `onReconnectFailed` emissions in an effect trace. -/
def countReconnectFailed (effects : List Effect) : Nat :=
  effects.countP (fun e => match e with
    | .emit c => c = "onReconnectFailed"
    | _ => false)

/-- One failed automatic reconnect attempt: the pending timer fires (invoking
`connect()`, which opens a transport), then the transport fails and `onclose`
runs `handleClose`. -/
def failCycle (stored : Option String) (s : WSClient) : WSClient × List Effect :=
  let p1 := fireReconnectTimer stored s
  let p2 := handleClose p1.1
  (p2.1, p1.2 ++ p2.2)

/-- The automatic-reconnect loop under an environment where every reconnect
attempt fails: while a reconnect timer is pending, run one `failCycle`;
stop as soon as no timer is pending.  `fuel` bounds the iteration. -/
def exhaustRun (stored : Option String) : Nat → WSClient → WSClient × List Effect
  | 0, s => (s, [])
  | fuel + 1, s =>
    if s.reconnectTimer then
      let p1 := failCycle stored s
      let p2 := exhaustRun stored fuel p1.1
      (p2.1, p1.2 ++ p2.2)
    else
      (s, [])

/-! ## Concrete instances used by scenarios and witnesses -/

/-- A JSON error body carrying a `message` field. -/
def body503 : ResponseBody :=
  { isJson := true, jsonMessage := some "Service Unavailable", jsonDetail := none, text := "" }

/-- A successful response body. -/
def body200 : ResponseBody :=
  { isJson := true, jsonMessage := none, jsonDetail := none, text := "ok-body" }

/-- The spec §8 scenario policy `{maxAttempts:3, baseDelay:1000,
backoffMultiplier:2, retryableStatusCodes:[503]}`. -/
def cfg3 : RetryConfig :=
  { maxAttempts := 3
    retryDelay := 1000
    backoffMultiplier := 2
    retryableStatuses := [503]
    nonRetryableStatuses := [400, 401, 403, 404]
    networkErrors := ["ECONNRESET", "ETIMEDOUT", "EAI_AGAIN"] }

/-- A transport answering 503, 503, then 200. -/
def transport503x2 : Nat → AttemptResult
  | 1 => .response false 503 body503
  | 2 => .response false 503 body503
  | _ => .response true 200 body200

/-- A transport answering 503 on every attempt. -/
def transportAll503 : Nat → AttemptResult := fun _ => .response false 503 body503

/-- A transport answering 200 on every attempt. -/
def transport200 : Nat → AttemptResult := fun _ => .response true 200 body200

/-- The full run of `fetchWithRetry` under `RETRY_CONFIG` against a transport
that always answers 503: three attempts, sleeping 1000 then 2000 ms. -/
lemma run_all503 : fetchWithRetry RETRY_CONFIG transportAll503 1 =
    { attempts := [1, 2, 3], sleeps := [(1, 1000), (2, 2000)],
      outcome := .error (mkHttpError 503 body503) } := by
  rw [fetchWithRetry_retry rfl (by decide) (by decide),
    fetchWithRetry_retry rfl (by decide) (by decide),
    fetchWithRetry_stop rfl (Or.inr (by decide))]
  decide

/-! ## Claims C1-C3 -/

/-- C1: every retryable failure at attempt `n < maxAttempts` sleeps exactly
`retryDelay * backoffMultiplier ^ (n - 1)` ms before attempt `n + 1` — a run
records a sleep `(n, d)` only with `n < maxAttempts` and that exact `d` — and
every such delay is at most 30000 ms, the spec's `maxDelay` default
(`RETRY_CONFIG` itself declares no `maxDelay` and the source applies no cap;
the bound holds because `maxAttempts = 3` keeps every realizable delay at
1000 or 2000 ms). -/
theorem retry_backoff_delay_capped (transport : Nat → AttemptResult) (n d : Nat)
    (h : (n, d) ∈ (fetchWithRetry RETRY_CONFIG transport 1).sleeps) :
    n < RETRY_CONFIG.maxAttempts ∧
    d = RETRY_CONFIG.retryDelay * RETRY_CONFIG.backoffMultiplier ^ (n - 1) ∧
    d ≤ 30000 := by
  obtain ⟨h1, h2, h3⟩ :=
    fetchWithRetry_sleeps_spec RETRY_CONFIG transport RETRY_CONFIG.maxAttempts 1
      (by omega) (n, d) h
  simp only at h1 h2 h3
  refine ⟨h2, h3, ?_⟩
  have hn : n - 1 ≤ 1 := by
    have : n < 3 := h2
    omega
  have hpow : (2 : Nat) ^ (n - 1) ≤ 2 ^ 1 := Nat.pow_le_pow_right (by norm_num) hn
  have : d ≤ 1000 * 2 ^ 1 := by
    rw [h3]
    exact Nat.mul_le_mul_left _ hpow
  omega

/-- C1 witness: against the always-503 transport, attempt 1 sleeps 1000 ms. -/
theorem retry_backoff_delay_capped_witness :
    (1, 1000) ∈ (fetchWithRetry RETRY_CONFIG transportAll503 1).sleeps ∧
    (1 < RETRY_CONFIG.maxAttempts ∧
      1000 = RETRY_CONFIG.retryDelay * RETRY_CONFIG.backoffMultiplier ^ (1 - 1) ∧
      1000 ≤ 30000) := by
  have hm : (1, 1000) ∈ (fetchWithRetry RETRY_CONFIG transportAll503 1).sleeps := by
    rw [run_all503]
    decide
  exact ⟨hm, retry_backoff_delay_capped transportAll503 1 1000 hm⟩

/-- C2: a response whose status is in `nonRetryableStatuses` makes exactly one
transport attempt (no sleeps) and surfaces the `HttpStatus` failure, for every
configuration with `maxAttempts ≥ 1` — in particular even when the same status
also appears in `retryableStatuses`, because the non-retryable check is
evaluated first in `isRetryableError`. -/
theorem nonretryable_status_single_attempt (cfg : RetryConfig)
    (transport : Nat → AttemptResult) (status : Nat) (body : ResponseBody)
    (hmem : status ∈ cfg.nonRetryableStatuses)
    (_hmax : 1 ≤ cfg.maxAttempts)
    (htr : transport 1 = .response false status body) :
    fetchWithRetry cfg transport 1 =
      { attempts := [1], sleeps := [], outcome := .error (mkHttpError status body) } := by
  apply fetchWithRetry_stop htr
  left
  simp [isRetryableError, mkHttpError, hmem]

/-- C2 witness: status 401 placed in both status lists still stops after one
attempt under a config with `maxAttempts = 3`. -/
theorem nonretryable_status_single_attempt_witness :
    (401 ∈ RETRY_CONFIG.nonRetryableStatuses ∧ 1 ≤ RETRY_CONFIG.maxAttempts + 0) ∧
    fetchWithRetry { RETRY_CONFIG with retryableStatuses := 401 :: RETRY_CONFIG.retryableStatuses }
        (fun _ => .response false 401 body503) 1 =
      { attempts := [1], sleeps := [], outcome := .error (mkHttpError 401 body503) } := by
  refine ⟨by decide, ?_⟩
  exact nonretryable_status_single_attempt
    { RETRY_CONFIG with retryableStatuses := 401 :: RETRY_CONFIG.retryableStatuses }
    (fun _ => .response false 401 body503) 401 body503 (by decide) (by decide) rfl

/-- C3: under the spec §8 scenario policy, a transport answering 503, 503, 200
makes exactly the three attempts with sleeps of 1000 ms then 2000 ms and
returns the 200 body; and in general an ok response at any attempt stops the
run immediately with no further attempt and no sleep. -/
theorem retry_scenario_and_success_stops :
    fetchWithRetry cfg3 transport503x2 1 =
      { attempts := [1, 2, 3], sleeps := [(1, 1000), (2, 2000)],
        outcome := .ok (200, body200) } ∧
    ∀ (cfg : RetryConfig) (t : Nat → AttemptResult) (a st : Nat) (b : ResponseBody),
      t a = .response true st b →
      fetchWithRetry cfg t a = { attempts := [a], sleeps := [], outcome := .ok (st, b) } := by
  constructor
  · rw [fetchWithRetry_retry rfl (by decide) (by decide),
      fetchWithRetry_retry rfl (by decide) (by decide),
      fetchWithRetry_success rfl]
    decide
  · intro cfg t a st b h
    exact fetchWithRetry_success h

/-- C3 witness: an ok response at attempt 5 returns at once. -/
theorem retry_scenario_and_success_stops_witness :
    transport200 5 = .response true 200 body200 ∧
    fetchWithRetry cfg3 transport200 5 =
      { attempts := [5], sleeps := [], outcome := .ok (200, body200) } :=
  ⟨rfl, retry_scenario_and_success_stops.2 cfg3 transport200 5 200 body200 rfl⟩

/-- The messages actually handed to the transport in an effect trace. -/
def transmittedMsgs (effects : List Effect) : List String :=
  effects.filterMap (fun e => match e with
    | .transmit m => some m
    | _ => none)

lemma filterMap_transmit_map (l : List String) :
    (l.map Effect.transmit).filterMap (fun e => match e with
      | .transmit m => some m
      | _ => none) = l := by
  induction l with
  | nil => rfl
  | cons m rest ih => simp [ih]

lemma filterMap_comp_transmit (l : List String) :
    List.filterMap ((fun e => match e with
      | Effect.transmit m => some m
      | _ => none) ∘ Effect.transmit) l = l := by
  induction l with
  | nil => rfl
  | cons m rest ih => simp_all [Function.comp]

/-- A freshly constructed client for the session key "42". -/
def client0 : WSClient :=
  { debateId := "42"
    config := RECONNECT_CONFIG
    token := some "tok"
    ws := false
    isConnecting := false
    isConnected := false
    shouldReconnect := true
    reconnectAttempts := 0
    reconnectTimer := false
    heartbeatTimer := false
    messageQueue := [] }

/-- An open client with two queued messages. -/
def sQueued : WSClient :=
  { client0 with isConnected := true, ws := true, messageQueue := ["m1", "m2"] }

/-- A transport on which sending "m1" throws and everything else succeeds. -/
def envFail1 : String → Bool := fun m => !(m == "m1")

/-! ## Claims C4-C10 -/

/-- C4 counterexample: with queue `["m1", "m2"]` and a transport that fails on
`"m1"`, the open-transition drain leaves the queue as `["m2", "m1"]` — the
failed message has been pushed to the back — not `["m1", "m2"]` as the claim's
"original relative order" requires. -/
theorem queue_requeue_order_counterexample :
    (flushMessageQueue envFail1 sQueued).1.messageQueue = ["m2", "m1"] ∧
    ¬ (flushMessageQueue envFail1 sQueued).1.messageQueue = ["m1", "m2"] := by
  decide

/-- C4 (amended): `send` while not connected appends the message to the queue
and returns false ("queued"); on the transition to `Open` the queue is drained
strictly in enqueue order — if every transmission succeeds, all queued messages
go out in order and the queue empties; draining stops at the first transmission
failure, after which the queue holds the not-yet-attempted messages in their
original relative order followed by the failed message re-queued at the back;
the messages transmitted by `handleOpen` are exactly the drained prefix of the
old queue, before any later `send` transmits anything new. -/
theorem queue_drain_order :
    (∀ (env : String → Bool) (s : WSClient) (m : String), s.isConnected = false →
      send env s m = ({ s with messageQueue := s.messageQueue ++ [m] }, false, [])) ∧
    (∀ (env : String → Bool) (q : List String), (∀ m ∈ q, env m = true) →
      drain env q = (q, [])) ∧
    (∀ (env : String → Bool) (pre : List String) (f : String) (post : List String),
      (∀ m ∈ pre, env m = true) → env f = false →
      drain env (pre ++ f :: post) = (pre, post ++ [f])) ∧
    (∀ (env : String → Bool) (s : WSClient), s.ws = true →
      transmittedMsgs (handleOpen env s).2 = (drain env s.messageQueue).1 ∧
      (handleOpen env s).1.messageQueue = (drain env s.messageQueue).2) := by
  refine ⟨?_, ?_, ?_, ?_⟩
  · intro env s m h
    simp [send, h]
  · intro env q h
    induction q with
    | nil => simp [drain]
    | cons m rest ih =>
      have hm : env m = true := h m (by simp)
      simp [drain, hm, ih (fun x hx => h x (by simp [hx]))]
  · intro env pre f post hpre hf
    induction pre with
    | nil => simp [drain, hf]
    | cons m rest ih =>
      have hm : env m = true := hpre m (by simp)
      simp [drain, hm, ih (fun x hx => hpre x (by simp [hx]))]
  · intro env s hws
    by_cases hh : s.heartbeatTimer <;>
      simp [handleOpen, flushMessageQueue, startHeartbeat, stopHeartbeat, hws, hh,
        transmittedMsgs, List.filterMap_append, filterMap_transmit_map, filterMap_comp_transmit]

/-- C4 witness: draining `["m1", "m2"]` against a transport failing on `"m1"`
transmits nothing and leaves `["m2", "m1"]`. -/
theorem queue_drain_order_witness :
    drain envFail1 (([] : List String) ++ "m1" :: ["m2"]) = ([], ["m2"] ++ ["m1"]) :=
  queue_drain_order.2.2.1 envFail1 [] "m1" ["m2"] (by simp) (by decide)

/-- The inbound frames of the spec §8 scenario. -/
def dSpeech : WSData := { type := some "speech", content := some "x" }

def dUnknown : WSData := { type := some "unknown_x", content := none }

/-- C5: a parsed frame whose discriminator is recognized is delivered to that
type's named channel with the full payload and then to the catch-all
`onMessage` channel; a parsed frame with an unrecognized (truthy) discriminator
logs a warning and reaches only the catch-all channel; a non-parseable frame
only logs a diagnostic — and in every case the instance state is returned
unchanged, so the connection is not closed. -/
theorem inbound_dispatch :
    (∀ (s : WSClient) (d : WSData) (t c : String), d.type = some t → channelFor t = some c →
      handleMessage s (some d) = (s, [MsgEffect.emit c d, MsgEffect.emit "onMessage" d])) ∧
    (∀ (s : WSClient) (d : WSData) (t : String), d.type = some t → t ≠ "" →
      channelFor t = none →
      handleMessage s (some d) = (s, [MsgEffect.warnUnknownType t, MsgEffect.emit "onMessage" d])) ∧
    (∀ s : WSClient, handleMessage s none = (s, [MsgEffect.logParseError])) := by
  refine ⟨?_, ?_, ?_⟩
  · intro s d t c hd hc
    obtain ⟨ty, co⟩ := d
    obtain rfl : ty = some t := hd
    have ht : t ≠ "" := by
      intro h
      rw [h] at hc
      simp [channelFor] at hc
    unfold channelFor at hc
    simp only [handleMessage, WSMessageType.SPEECH, WSMessageType.STATUS, WSMessageType.SCORE,
      WSMessageType.NOTIFICATION, WSMessageType.ERROR, WSMessageType.CONNECTED]
    split_ifs at hc ⊢ <;> simp_all
  · intro s d t hd ht hc
    obtain ⟨ty, co⟩ := d
    obtain rfl : ty = some t := hd
    unfold channelFor at hc
    simp only [handleMessage, WSMessageType.SPEECH, WSMessageType.STATUS, WSMessageType.SCORE,
      WSMessageType.NOTIFICATION, WSMessageType.ERROR, WSMessageType.CONNECTED]
    split_ifs at hc ⊢ <;> simp_all
  · intro s
    rfl

/-- C5 witness: the spec scenario — `{"type":"speech","content":"x"}` reaches
the speech channel and the catch-all; `{"type":"unknown_x"}` reaches only the
catch-all with a warning; a malformed frame is dropped with a diagnostic. -/
theorem inbound_dispatch_witness :
    handleMessage client0 (some dSpeech) =
      (client0, [MsgEffect.emit "onSpeech" dSpeech, MsgEffect.emit "onMessage" dSpeech]) ∧
    handleMessage client0 (some dUnknown) =
      (client0, [MsgEffect.warnUnknownType "unknown_x", MsgEffect.emit "onMessage" dUnknown]) ∧
    handleMessage client0 none = (client0, [MsgEffect.logParseError]) :=
  ⟨inbound_dispatch.1 client0 dSpeech "speech" "onSpeech" rfl rfl,
    inbound_dispatch.2.1 client0 dUnknown "unknown_x" rfl (by decide) rfl,
    inbound_dispatch.2.2 client0⟩

/-- C6: an unintentional closure with `shouldReconnect` set (and reconnection
enabled) while attempts remain increments the attempt counter by exactly one,
computes the delay as `min(baseDelay * backoffMultiplier ^ attemptCount,
maxDelay)` from the pre-increment counter, and schedules exactly one single-shot
reconnect timer (whose callback re-invokes `connect()`, see
`fireReconnectTimer`). -/
theorem reconnect_delay_computation (s : WSClient)
    (h1 : s.shouldReconnect = true) (h2 : s.config.enabled = true)
    (h3 : s.reconnectAttempts < s.config.maxAttempts) :
    (handleClose s).1.reconnectAttempts = s.reconnectAttempts + 1 ∧
    (handleClose s).1.reconnectTimer = true ∧
    ((handleClose s).2.countP (fun e => match e with
      | .setReconnectTimer _ => true
      | _ => false)) = 1 ∧
    Effect.setReconnectTimer
        (min (s.config.baseDelay * s.config.backoffMultiplier ^ s.reconnectAttempts)
          s.config.maxDelay)
      ∈ (handleClose s).2 := by
  have h3' : ¬ s.config.maxAttempts ≤ s.reconnectAttempts := by omega
  by_cases hh : s.heartbeatTimer <;>
    simp [handleClose, stopHeartbeat, scheduleReconnect, h1, h2, h3', hh, List.countP_cons]

/-- An open, heartbeating client that has already used two reconnect attempts. -/
def sOpenBeating : WSClient :=
  { client0 with isConnected := true, ws := true, heartbeatTimer := true, reconnectAttempts := 2 }

/-- C6 witness: a closure of `sOpenBeating` schedules exactly one timer with
delay `min(1000 * 2 ^ 2, 30000) = 4000` and bumps the counter to 3. -/
theorem reconnect_delay_computation_witness :
    (handleClose sOpenBeating).1.reconnectAttempts = sOpenBeating.reconnectAttempts + 1 ∧
    (handleClose sOpenBeating).1.reconnectTimer = true ∧
    ((handleClose sOpenBeating).2.countP (fun e => match e with
      | .setReconnectTimer _ => true
      | _ => false)) = 1 ∧
    Effect.setReconnectTimer
        (min (sOpenBeating.config.baseDelay *
            sOpenBeating.config.backoffMultiplier ^ sOpenBeating.reconnectAttempts)
          sOpenBeating.config.maxDelay)
      ∈ (handleClose sOpenBeating).2 :=
  reconnect_delay_computation sOpenBeating rfl rfl (by decide)

lemma exhaustRun_noTimer (stored : Option String) (fuel : Nat) (s : WSClient)
    (h : s.reconnectTimer = false) : exhaustRun stored fuel s = (s, []) := by
  cases fuel <;> simp [exhaustRun, h]

/-- One failed reconnect cycle opens exactly one transport; it either emits
the exhaustion notice and leaves no timer pending (counter at `maxAttempts`),
or schedules the next attempt with the counter bumped. -/
lemma failCycle_spec (tok : String) (s : WSClient)
    (he : s.config.enabled = true) (hr : s.shouldReconnect = true)
    (hc1 : s.isConnecting = false) (hc2 : s.isConnected = false)
    (ht : s.reconnectTimer = true) :
    countOpen (failCycle (some tok) s).2 = 1 ∧
    (failCycle (some tok) s).1.config = s.config ∧
    (failCycle (some tok) s).1.shouldReconnect = true ∧
    (failCycle (some tok) s).1.isConnecting = false ∧
    (failCycle (some tok) s).1.isConnected = false ∧
    (if s.config.maxAttempts ≤ s.reconnectAttempts then
      countReconnectFailed (failCycle (some tok) s).2 = 1 ∧
      (failCycle (some tok) s).1.reconnectTimer = false ∧
      (failCycle (some tok) s).1.reconnectAttempts = s.reconnectAttempts
    else
      countReconnectFailed (failCycle (some tok) s).2 = 0 ∧
      (failCycle (some tok) s).1.reconnectTimer = true ∧
      (failCycle (some tok) s).1.reconnectAttempts = s.reconnectAttempts + 1) := by
  by_cases hh : s.heartbeatTimer <;> by_cases hm : s.config.maxAttempts ≤ s.reconnectAttempts <;>
    simp [failCycle, fireReconnectTimer, connect, getToken, buildUrl, handleClose, stopHeartbeat,
      scheduleReconnect, handleConnectionError, countOpen, countReconnectFailed,
      ht, hc1, hc2, hr, he, hh, hm, List.countP_cons, List.countP_append]

/-- Running the automatic-reconnect loop with every attempt failing, from a
state with a pending timer and `attemptCount ≤ maxAttempts`: exactly
`maxAttempts + 1 - attemptCount` further transports are opened, the
exhaustion notice is emitted exactly once, and the loop ends quiescent with no
timer pending. -/
lemma exhaustRun_exhausts (tok : String) :
    ∀ (k : Nat) (s : WSClient),
      s.config.enabled = true → s.shouldReconnect = true →
      s.isConnecting = false → s.isConnected = false →
      s.reconnectTimer = true →
      s.reconnectAttempts ≤ s.config.maxAttempts →
      k = s.config.maxAttempts + 1 - s.reconnectAttempts →
      ∀ fuel, k ≤ fuel →
        countOpen (exhaustRun (some tok) fuel s).2 = k ∧
        countReconnectFailed (exhaustRun (some tok) fuel s).2 = 1 ∧
        (exhaustRun (some tok) fuel s).1.reconnectTimer = false ∧
        (exhaustRun (some tok) fuel s).1.isConnecting = false ∧
        (exhaustRun (some tok) fuel s).1.isConnected = false ∧
        (exhaustRun (some tok) fuel s).1.shouldReconnect = true ∧
        (exhaustRun (some tok) fuel s).1.config = s.config := by
  intro k
  induction k with
  | zero =>
    intro s _ _ _ _ _ hle hk
    omega
  | succ k ih =>
    intro s he hr hc1 hc2 ht hle hk fuel hfuel
    obtain ⟨fuel, rfl⟩ : ∃ f, fuel = f + 1 := ⟨fuel - 1, by omega⟩
    have step : exhaustRun (some tok) (fuel + 1) s =
        ((exhaustRun (some tok) fuel (failCycle (some tok) s).1).1,
          (failCycle (some tok) s).2 ++
            (exhaustRun (some tok) fuel (failCycle (some tok) s).1).2) := by
      simp [exhaustRun, ht]
    obtain ⟨o1, hcfg, hsr', hic', hicd', hcond⟩ := failCycle_spec tok s he hr hc1 hc2 ht
    by_cases hm : s.config.maxAttempts ≤ s.reconnectAttempts
    · rw [if_pos hm] at hcond
      obtain ⟨f1, ftimer, _⟩ := hcond
      have hk1 : k = 0 := by omega
      subst hk1
      rw [step, exhaustRun_noTimer (some tok) fuel _ ftimer]
      simp only [List.append_nil]
      exact ⟨o1, f1, ftimer, hic', hicd', hsr', hcfg⟩
    · rw [if_neg hm] at hcond
      obtain ⟨f1, ftimer, fatt⟩ := hcond
      have hrec := ih (failCycle (some tok) s).1 (by rw [hcfg]; exact he) hsr' hic' hicd' ftimer
        (by rw [fatt, hcfg]; omega) (by rw [fatt, hcfg]; omega) fuel (by omega)
      obtain ⟨ro, rf, rt, ric, ricd, rsr, rcfg⟩ := hrec
      rw [step]
      refine ⟨?_, ?_, rt, ric, ricd, rsr, by rw [rcfg, hcfg]⟩
      · simp only [countOpen, List.countP_append] at o1 ro ⊢
        omega
      · simp only [countReconnectFailed, List.countP_append] at f1 rf ⊢
        omega

/-- An explicit `reconnect()` always resets the attempt counter to zero and
opens exactly one transport (disconnect never opens one; the ensuing
`connect()` on cleared flags with a stored credential opens one). -/
lemma reconnect_spec (tok : String) (s : WSClient) :
    (reconnect (some tok) s).1.reconnectAttempts = 0 ∧
    countOpen (reconnect (some tok) s).2 = 1 := by
  by_cases h1 : s.reconnectTimer <;> by_cases h2 : s.heartbeatTimer <;> by_cases h3 : s.ws <;>
    simp [reconnect, disconnect, stopHeartbeat, connect, getToken, buildUrl, countOpen,
      h1, h2, h3, List.countP_append]

/-- C7: after an unintentional closure has started the automatic reconnect
sequence (`attemptCount = 1`, one timer pending) and every subsequent attempt
fails, exactly `maxAttempts` automatic `connect()` invocations occur, the
`onReconnectFailed` notification is emitted exactly once over the whole
sequence, the loop ends with no timer pending and a stray timer-fire is a
no-op (no further automatic `connect()` ever), while an explicit `reconnect()`
resets the counter to zero and deliberately opens exactly one new transport. -/
theorem reconnect_exhaustion (s : WSClient) (tok : String) (fuel : Nat)
    (he : s.config.enabled = true) (hr : s.shouldReconnect = true)
    (hc1 : s.isConnecting = false) (hc2 : s.isConnected = false)
    (ht : s.reconnectTimer = true) (ha : s.reconnectAttempts = 1)
    (hm : 1 ≤ s.config.maxAttempts) (hfuel : s.config.maxAttempts ≤ fuel) :
    countOpen (exhaustRun (some tok) fuel s).2 = s.config.maxAttempts ∧
    countReconnectFailed (exhaustRun (some tok) fuel s).2 = 1 ∧
    (exhaustRun (some tok) fuel s).1.reconnectTimer = false ∧
    fireReconnectTimer (some tok) (exhaustRun (some tok) fuel s).1 =
      ((exhaustRun (some tok) fuel s).1, []) ∧
    (reconnect (some tok) (exhaustRun (some tok) fuel s).1).1.reconnectAttempts = 0 ∧
    countOpen (reconnect (some tok) (exhaustRun (some tok) fuel s).1).2 = 1 := by
  obtain ⟨ho, hf, htm, _, _, _, _⟩ :=
    exhaustRun_exhausts tok s.config.maxAttempts s he hr hc1 hc2 ht (by omega) (by omega)
      fuel hfuel
  exact ⟨ho, hf, htm, by simp [fireReconnectTimer, htm],
    (reconnect_spec tok _).1, (reconnect_spec tok _).2⟩

/-- The post-initial-closure state: first reconnect timer pending, counter 1. -/
def sExhaust : WSClient :=
  { client0 with ws := true, reconnectAttempts := 1, reconnectTimer := true }

/-- C7 witness: from `sExhaust` under `RECONNECT_CONFIG` with every attempt
failing, 5 automatic connects happen, one exhaustion notice fires, and an
explicit `reconnect()` resets and opens one transport. -/
theorem reconnect_exhaustion_witness :
    countOpen (exhaustRun (some "tok") 5 sExhaust).2 = sExhaust.config.maxAttempts ∧
    countReconnectFailed (exhaustRun (some "tok") 5 sExhaust).2 = 1 ∧
    (exhaustRun (some "tok") 5 sExhaust).1.reconnectTimer = false ∧
    fireReconnectTimer (some "tok") (exhaustRun (some "tok") 5 sExhaust).1 =
      ((exhaustRun (some "tok") 5 sExhaust).1, []) ∧
    (reconnect (some "tok") (exhaustRun (some "tok") 5 sExhaust).1).1.reconnectAttempts = 0 ∧
    countOpen (reconnect (some "tok") (exhaustRun (some "tok") 5 sExhaust).1).2 = 1 :=
  reconnect_exhaustion sExhaust "tok" 5 rfl rfl rfl rfl rfl rfl (by decide) (by decide)

/-- C8: `disconnect` is idempotent (a second call changes nothing and performs
no action), it leaves both the reconnect timer and the heartbeat timer
cancelled, a reconnect timer can no longer fire after it returns (so no
transport is reopened automatically), and `disconnect` itself opens no
transport. -/
theorem disconnect_idempotent_cancel :
    ∀ (s : WSClient) (stored : Option String),
      disconnect (disconnect s).1 = ((disconnect s).1, []) ∧
      (disconnect s).1.reconnectTimer = false ∧
      (disconnect s).1.heartbeatTimer = false ∧
      fireReconnectTimer stored (disconnect s).1 = ((disconnect s).1, []) ∧
      countOpen (disconnect s).2 = 0 := by
  intro s stored
  by_cases h1 : s.reconnectTimer <;> by_cases h2 : s.heartbeatTimer <;> by_cases h3 : s.ws <;>
    simp [disconnect, stopHeartbeat, fireReconnectTimer, countOpen, h1, h2, h3]

lemma handleConnectionError_spec (s : WSClient) :
    countOpen (handleConnectionError s).2 = 0 ∧
    (handleConnectionError s).1.ws = s.ws ∧
    Effect.emit "onError" ∈ (handleConnectionError s).2 := by
  by_cases hb : (s.shouldReconnect && s.config.enabled) = true <;>
    by_cases hm : s.config.maxAttempts ≤ s.reconnectAttempts <;>
      simp [handleConnectionError, scheduleReconnect, countOpen, hb, hm]

/-- A fresh `connect` with no stored credential on a tokenless client reduces
to the connection-error path. -/
lemma connect_noToken (s : WSClient) (htok : s.token = none)
    (h1 : s.isConnecting = false) (h2 : s.isConnected = false) :
    connect s none = handleConnectionError s := by
  obtain ⟨did, cfg, tk, ws, ic, icd, sr, ra, rt, hb, mq⟩ := s
  simp only at htok h1 h2
  subst htok
  subst h1
  subst h2
  rfl

/-- C9: with no credential available, `buildUrl` throws the missing-token
error, `connect` emits the failure without ever opening a transport (the
socket field is untouched), and the registry-level `connectWebSocket` throws a
401 `APIError` without creating or caching any client. -/
theorem missing_credential_connect (s : WSClient)
    (htok : s.token = none) (h1 : s.isConnecting = false) (h2 : s.isConnected = false)
    (cache : List (String × WSClient)) (debateId : String) (cfg : ReconnectConfig) :
    buildUrl s = .error "未找到认证令牌" ∧
    countOpen (connect s none).2 = 0 ∧
    (connect s none).1.ws = s.ws ∧
    Effect.emit "onError" ∈ (connect s none).2 ∧
    apiConnectWebSocket none cache debateId cfg =
      .error { message := "未找到认证令牌", status := 401 } := by
  rw [connect_noToken s htok h1 h2]
  obtain ⟨ho, hw, he⟩ := handleConnectionError_spec s
  exact ⟨by simp [buildUrl, htok], ho, hw, he, rfl⟩

/-- A tokenless fresh client. -/
def sNoTok : WSClient := { client0 with token := none }

/-- C9 witness: the tokenless fresh client fails to connect without opening a
transport, and the registry call throws 401 on an empty cache. -/
theorem missing_credential_connect_witness :
    buildUrl sNoTok = .error "未找到认证令牌" ∧
    countOpen (connect sNoTok none).2 = 0 ∧
    (connect sNoTok none).1.ws = sNoTok.ws ∧
    Effect.emit "onError" ∈ (connect sNoTok none).2 ∧
    apiConnectWebSocket none [] "42" RECONNECT_CONFIG =
      .error { message := "未找到认证令牌", status := 401 } :=
  missing_credential_connect sNoTok rfl rfl rfl [] "42" RECONNECT_CONFIG

/-- C10: calling `connect` while the instance is already connecting or already
connected returns immediately: no effect is performed (in particular no second
transport is opened) and the instance state is returned entirely unchanged. -/
theorem connect_noop_when_active (s : WSClient) (stored : Option String)
    (h : s.isConnecting = true ∨ s.isConnected = true) :
    connect s stored = (s, []) := by
  rcases h with h | h <;> simp [connect, h]

/-- C10 witness: `connect` on the open client is a no-op. -/
theorem connect_noop_when_active_witness :
    connect sQueued (some "tok2") = (sQueued, []) :=
  connect_noop_when_active sQueued (some "tok2") (Or.inr rfl)

end AgentsArena
